import Mathlib

/-!
Verification of the OAuth / identity subsystem of the odoo-mcp-server
repository: a shallow embedding of the token validator, the user-context
extractor, the scope gate, the tool-scope table and the employee resolver,
with theorems settling the behavioural claims about them.

Conventions of the embedding:
* Python dictionaries holding JWT claims become a structure of `Option`
  fields (`none` models an absent key).
* Python truthiness on strings / ints / lists is modelled explicitly
  (`pyTruthyStr`, empty-list tests, a zero int is falsy).
* Machine time (`time.time()`) is an `Int` parameter `now`, one reading
  per call, matching the code reading the clock per call.
* Network effects are made explicit: validators return a `Bool` flag that
  is `true` on every path that may reach the network (JWKS fetch, the
  federated tokeninfo endpoint) and `false` on the purely local paths; the
  employee resolver returns the list of backend RPC calls it issued, in
  program order (the two searches issued through `asyncio.gather` appear
  in the order the tasks are created).
-/

namespace OdooMcp

/-!
String primitives are implemented over the character list of the string
(`String.data`), so that every definition evaluates inside the kernel on
concrete inputs; each is the direct counterpart of the Python string
operation named in its doc comment.
-/

/-- Python falsiness of a string: `s == ""`. -/
def strIsEmpty (s : String) : Bool := s == ""

/-- Python `s.endswith(post)`: suffix test on the character list. -/
def strEndsWith (s post : String) : Bool := post.data.isSuffixOf s.data

/-- Python `s.lower()` as used on email cache keys. -/
def strToLower (s : String) : String := ⟨s.data.map Char.toLower⟩

/-- Python `s.replace(a, b)` for single-character `a`, `b`. -/
def strReplaceChar (s : String) (a b : Char) : String :=
  ⟨s.data.map (fun c => if c == a then b else c)⟩

/-- Python `s.split(sep)[0]` for a single-character separator: the prefix
before the first occurrence (the whole string when absent). -/
def strBeforeFirst (s : String) (sep : Char) : String :=
  ⟨s.data.takeWhile (fun c => c != sep)⟩

/-- Python `str.split()` with no argument: split on runs of whitespace and
drop empty pieces. -/
def pySplitWs (s : String) : List String :=
  ((s.data.splitOnP (fun c => c.isWhitespace)).map
    (fun cs => (⟨cs⟩ : String))).filter (fun t => !strIsEmpty t)

/-- Python truthiness of an optional string: `None` and `""` are falsy. -/
def pyTruthyStr (o : Option String) : Bool :=
  match o with
  | some s => !strIsEmpty s
  | none => false

/-- Python `a or b` on two optional strings (`dict.get(k1) or dict.get(k2)`):
the first operand is kept when it is truthy, otherwise the second is
returned. -/
def pyOrStr (a b : Option String) : Option String :=
  if pyTruthyStr a then a else b

/-- Python truthiness of an optional int claim: `None` and `0` are falsy. -/
def pyTruthyInt (o : Option Int) : Bool :=
  match o with
  | some i => i != 0
  | none => false

/-- Decoded JWT claims, as the dictionary produced by token validation.
Fields the OAuth layer reads; an absent dictionary key is `none`
(`email_verified` is read with `claims.get("email_verified", False)`, so it
is modelled directly as a `Bool`). -/
structure TokClaims where
  iss : Option String := none
  sub : Option String := none
  aud : Option String := none
  exp : Option Int := none
  email : Option String := none
  email_verified : Bool := false
  azp : Option String := none
  scope : Option String := none
  odoo_employee_id : Option Int := none
deriving DecidableEq, Repr

/-- The user context built by `extract_user_context`
(src/odoo_mcp_server/oauth/resource_server.py). -/
structure UserContext where
  sub : Option String
  email : Option String
  employee_id : Option Int
  scopes : List String
deriving DecidableEq, Repr

/-- The default scopes granted to verified Google users whose token carries
no scope claim (resource_server.py lines 51-62). -/
def defaultGoogleScopes : List String :=
  ["openid", "email", "profile",
   "odoo.hr.profile", "odoo.hr.team", "odoo.hr.directory",
   "odoo.leave.read", "odoo.leave.write",
   "odoo.documents.read", "odoo.read"]

/-- The extra scopes granted on top for `@keboola.com` addresses
(resource_server.py lines 67-70). -/
def internalExtraScopes : List String :=
  ["odoo.documents.write", "odoo.write"]

/-- The Google issuer string compared against `claims.get("iss")`. -/
def googleIssuer : String := "https://accounts.google.com"

/-- Embedding of `extract_user_context` (resource_server.py lines 21-79):
split the scope string; when the resulting list is empty and the issuer is
Google, synthesize the default scope list for a verified, non-empty email,
extended for the internal domain. -/
def extract_user_context (claims : TokClaims) : UserContext :=
  let scopeString := claims.scope.getD ""
  let scopes0 := if strIsEmpty scopeString then [] else pySplitWs scopeString
  let scopes :=
    if scopes0.isEmpty && (claims.iss == some googleIssuer) then
      let email := claims.email.getD ""
      if claims.email_verified && !strIsEmpty email then
        defaultGoogleScopes ++
          (if strEndsWith email "@keboola.com" then internalExtraScopes else [])
      else scopes0
    else scopes0
  { sub := claims.sub
    email := (match claims.email with
              | some e => some e
              | none => claims.sub)
    employee_id := claims.odoo_employee_id
    scopes := scopes }

/-- Embedding of `check_scope_access` (config.py lines 95-106): true when
any required scope is among the granted scopes. A plain total boolean
function, with no failure mode. -/
def check_scope_access (required_scopes granted_scopes : List String) : Bool :=
  required_scopes.any (fun scope => granted_scopes.contains scope)

/-- Embedding of `TOOL_SCOPE_REQUIREMENTS` (config.py lines 36-67): the
static tool-name to required-scope-list table. -/
def TOOL_SCOPE_REQUIREMENTS : List (String × List String) :=
  [("get_my_profile", ["odoo.hr.profile", "odoo.read"]),
   ("get_my_manager", ["odoo.hr.profile", "odoo.read"]),
   ("get_my_team", ["odoo.hr.team", "odoo.read"]),
   ("find_colleague", ["odoo.hr.directory", "odoo.read"]),
   ("get_direct_reports", ["odoo.hr.team", "odoo.read"]),
   ("update_my_contact", ["odoo.hr.profile.write", "odoo.write"]),
   ("get_my_leave_balance", ["odoo.leave.read", "odoo.read"]),
   ("get_my_leave_requests", ["odoo.leave.read", "odoo.read"]),
   ("request_leave", ["odoo.leave.write", "odoo.write"]),
   ("cancel_leave_request", ["odoo.leave.write", "odoo.write"]),
   ("get_public_holidays", ["odoo.leave.read", "odoo.read"]),
   ("get_my_documents", ["odoo.documents.read", "odoo.read"]),
   ("get_document_categories", ["odoo.documents.read", "odoo.read"]),
   ("upload_identity_document", ["odoo.documents.write", "odoo.write"]),
   ("download_document", ["odoo.documents.read", "odoo.read"]),
   ("get_document_details", ["odoo.documents.read", "odoo.read"]),
   ("search_records", ["odoo.read"]),
   ("get_record", ["odoo.read"]),
   ("create_record", ["odoo.write"]),
   ("update_record", ["odoo.write"]),
   ("delete_record", ["odoo.write"]),
   ("count_records", ["odoo.read"]),
   ("list_models", ["odoo.read"])]

/-- `TOOL_SCOPE_REQUIREMENTS.get(name, ["odoo.read"])` as used by both
`handle_tools_list` (http_server.py line 423) and `handle_tools_call`
(http_server.py line 444). -/
def toolRequiredScopes (name : String) : List String :=
  (((TOOL_SCOPE_REQUIREMENTS.find? (fun p => p.1 == name)).map Prod.snd)).getD
    ["odoo.read"]

/-- The filtering done by `handle_tools_list` (http_server.py lines
415-431): a tool is listed when the gate passes on its required scopes. -/
def toolsListAccessible (toolNames : List String) (userScopes : List String) :
    List String :=
  toolNames.filter (fun n => check_scope_access (toolRequiredScopes n) userScopes)

/-- The gate applied by `handle_tools_call` (http_server.py lines 442-451):
the call proceeds exactly when the gate passes on the required scopes. -/
def toolsCallAuthorized (toolName : String) (userScopes : List String) : Bool :=
  check_scope_access (toolRequiredScopes toolName) userScopes

/-! ## Token validator (oauth/token_validator.py) -/

/-- Validation errors: the subclasses of `TokenValidationError`
(token_validator.py lines 60-82) plus the base class itself for the
generic failures. Every constructor is an authentication-class error. -/
inductive VErr where
  | tokenExpired
  | invalidToken (msg : String)
  | invalidIssuer
  | invalidAudience
  | validationFailed (msg : String)
deriving DecidableEq, Repr

/-- The response of the Google tokeninfo endpoint for an opaque access
token, as read by `_validate_google_access_token` (token_validator.py
lines 250-311). `statusOk` models an HTTP 200 status. -/
structure Tokeninfo where
  statusOk : Bool := true
  aud : Option String := none
  azp : Option String := none
  expires_in : Option Int := none
  sub : Option String := none
  email : Option String := none
  email_verified : Option String := none
  scope : Option String := none
deriving DecidableEq, Repr

/-- A bearer token together with everything the environment determines
about it: its dot-separated segments, what the structured parse yields
(`none` on garbage), whether its signature verifies against the JWKS key,
and what the Google tokeninfo endpoint would answer for it (`none` models
a transport failure reaching that endpoint). -/
structure Token where
  parts : List String
  headerAlg : Option String := none
  payloadClaims : Option TokClaims := none
  sigOk : Bool := false
  tokeninfo : Option Tokeninfo := none
deriving DecidableEq, Repr

/-- Rejoin dot-separated segments into the raw token text. -/
def joinDot : List String → String
  | [] => ""
  | [s] => s
  | s :: rest => s ++ "." ++ joinDot rest

/-- Cache key for a token. The code keys the cache by a truncated SHA-256
digest of the raw token (`_get_token_hash`, token_validator.py lines
29-31); the digest is modelled as the injective map back to the raw token
text (segments rejoined with dots), since the code relies only on
same-token-same-key (collisions are accepted entropy risk). -/
def tokenKey : Token → String :=
  fun t => joinDot t.parts

/-- The process-wide `_token_cache`: token key to (claims, expiry). -/
abbrev TokenCache := List (String × TokClaims × Int)

/-- `_TOKEN_CACHE_TTL = 300` (token_validator.py line 25). -/
def TOKEN_CACHE_TTL : Int := 300

/-- Embedding of `_get_cached_claims` (token_validator.py lines 34-44):
return the cached claims when present and unexpired; delete an expired
entry. Also returns the possibly-updated cache. -/
def getCachedClaims (cache : TokenCache) (key : String) (now : Int) :
    Option TokClaims × TokenCache :=
  match cache.find? (fun e => e.1 == key) with
  | some (_, claims, expiry) =>
      if now < expiry then (some claims, cache)
      else (none, cache.filter (fun e => e.1 != key))
  | none => (none, cache)

/-- Embedding of `_cache_claims` (token_validator.py lines 47-57): the
stored expiry is `min(exp, now + TTL)` when the claims carry a truthy
`exp`, and `now + TTL` otherwise (a Python `0` exp is falsy). -/
def cacheClaims (cache : TokenCache) (key : String) (claims : TokClaims)
    (now : Int) : TokenCache :=
  let expiry :=
    match claims.exp with
    | some e => if e != 0 then min e (now + TOKEN_CACHE_TTL)
                else now + TOKEN_CACHE_TTL
    | none => now + TOKEN_CACHE_TTL
  (key, claims, expiry) :: cache.filter (fun e => e.1 != key)

/-- Validator configuration (the `TokenValidator` dataclass fields used by
`validate`, token_validator.py lines 85-104). -/
structure Validator where
  issuer : String
  audience : String
  is_google : Bool := false
  authorized_party : Option String := none
deriving DecidableEq, Repr

/-- `TokenValidator.__post_init__` (token_validator.py lines 106-114) as
invoked with only issuer and audience: `is_google` is set exactly when the
issuer is the Google issuer. -/
def mkValidator (issuer audience : String) : Validator :=
  { issuer := issuer, audience := audience,
    is_google := issuer == googleIssuer, authorized_party := none }

/-- The algorithm allow-list passed to `jwt.decode` on the Google JWT
branch (token_validator.py line 194). -/
def googleAllowedAlgs : List String := ["RS256"]

/-- The algorithm allow-list passed to `jwt.decode` on the standard OAuth
branch (token_validator.py line 225): RSA and ECDSA variants only. -/
def standardAllowedAlgs : List String :=
  ["RS256", "RS384", "RS512", "ES256", "ES384", "ES512"]

/-- The PyJWT pipeline on a three-segment token, as configured by
`TokenValidator.validate`: `PyJWKClient.get_signing_key_from_jwt` fails on
an unparseable header; `jwt.decode` rejects an algorithm outside the
allow-list, a bad signature and an undecodable payload, requires the
claims in the `require` list (`exp`, `iss`, `aud`, plus `email` on the
Google branch), and verifies expiry, issuer and audience. All failures
surface as the mapped `VErr` (token_validator.py lines 239-248). -/
def decodeJwt (t : Token) (algs : List String) (issuer audience : String)
    (requireEmail : Bool) (now : Int) : Except VErr TokClaims :=
  match t.headerAlg with
  | none => .error (.validationFailed "cannot parse token header")
  | some alg =>
    if !algs.contains alg then
      .error (.invalidToken "algorithm not allowed")
    else if !t.sigOk then
      .error (.invalidToken "signature verification failed")
    else
      match t.payloadClaims with
      | none => .error (.invalidToken "cannot decode payload")
      | some c =>
        if c.exp.isNone || c.iss.isNone || c.aud.isNone ||
            (requireEmail && c.email.isNone) then
          .error (.invalidToken "missing required claim")
        else if c.exp.getD 0 < now then
          .error .tokenExpired
        else if c.iss != some issuer then
          .error .invalidIssuer
        else if c.aud != some audience then
          .error .invalidAudience
        else
          .ok c

/-- Embedding of `_validate_google_access_token` (token_validator.py lines
250-311): non-200 response fails; the audience is `aud or azp` and must
equal the configured audience; a non-positive `expires_in` fails; on
success the claims are normalized to the JWT shape (note: no `exp` key is
produced). -/
def validateGoogleAccessToken (v : Validator) (t : Token) :
    Except VErr TokClaims :=
  match t.tokeninfo with
  | none => .error (.validationFailed "failed to validate token with Google")
  | some info =>
    if !info.statusOk then
      .error (.invalidToken "Google token validation failed")
    else if pyOrStr info.aud info.azp != some v.audience then
      .error .invalidAudience
    else
      match info.expires_in with
      | some e =>
        if e ≤ 0 then .error .tokenExpired
        else .ok
          { sub := info.sub, email := info.email,
            email_verified := info.email_verified == some "true",
            aud := pyOrStr info.aud info.azp, iss := some googleIssuer,
            scope := some (info.scope.getD "") }
      | none => .ok
          { sub := info.sub, email := info.email,
            email_verified := info.email_verified == some "true",
            aud := pyOrStr info.aud info.azp, iss := some googleIssuer,
            scope := some (info.scope.getD "") }

/-- Embedding of `TokenValidator.validate` (token_validator.py lines
134-248). Returns the validation result, the updated token cache and a
flag that is `true` on every path that may reach the network (the
tokeninfo call, or the JWKS / signing-key machinery on the structured
path) and `false` on the purely local paths (cache hit; malformed
non-Google token rejected before any fetch). -/
def validate (v : Validator) (cache : TokenCache) (t : Token) (now : Int) :
    Except VErr TokClaims × TokenCache × Bool :=
  match getCachedClaims cache (tokenKey t) now with
  | (some c, cache') => (.ok c, cache', false)
  | (none, cache') =>
    if t.parts.length != 3 then
      if v.is_google then
        match validateGoogleAccessToken v t with
        | .ok c => (.ok c, cacheClaims cache' (tokenKey t) c now, true)
        | .error e => (.error e, cache', true)
      else
        (.error (.invalidToken "Invalid JWT format"), cache', false)
    else
      if v.is_google then
        match decodeJwt t googleAllowedAlgs v.issuer v.audience true now with
        | .ok c =>
          if pyTruthyStr v.authorized_party && pyTruthyStr c.azp &&
              c.azp != v.authorized_party then
            (.error (.invalidToken "Invalid authorized party"), cache', true)
          else
            (.ok c, cacheClaims cache' (tokenKey t) c now, true)
        | .error e => (.error e, cache', true)
      else
        match decodeJwt t standardAllowedAlgs v.issuer v.audience false now with
        | .ok c => (.ok c, cacheClaims cache' (tokenKey t) c now, true)
        | .error e => (.error e, cache', true)

/-! ## Employee resolver (oauth/user_mapping.py) -/

/-- An `hr.employee` record as projected by the resolver queries
(`fields=["id", "name", "work_email", "department_id"]`); `department_id`
is an Odoo many2one, `False` or a `[id, name]` pair. -/
structure Employee where
  id : Int
  name : Option String := none
  work_email : Option String := none
  department_id : Option (Int × String) := none
deriving DecidableEq, Repr

/-- A `res.users` record as projected by the login search
(`fields=["id", "employee_id", "employee_ids"]`). -/
structure ResUser where
  id : Int
  employee_id : Option (Int × String) := none
  employee_ids : List Int := []
deriving DecidableEq, Repr

/-- The normalized employee dict built by `_normalize_employee`
(user_mapping.py lines 187-196). -/
structure NormalizedEmployee where
  id : Int
  name : Option String
  email : Option String
  department_id : Option Int
  department_name : Option String
deriving DecidableEq, Repr

/-- Embedding of `_normalize_employee` (user_mapping.py lines 187-196). -/
def normalizeEmployee (e : Employee) : NormalizedEmployee :=
  { id := e.id, name := e.name, email := e.work_email,
    department_id := e.department_id.map Prod.fst,
    department_name := e.department_id.map Prod.snd }

/-- The Odoo backend as seen by the resolver: the response each of its
five query shapes would return. `searchById i` is the
`[["id", "=", i]], limit=1` employee search, `searchByEmail e` the
`[["work_email", "=ilike", e]], limit=2` search, `searchUserByLogin e` the
`res.users` `[["login", "=ilike", e]], limit=1` search, `readEmployees`
the read-by-ids call and `searchFuzzy n` the `[["name", "ilike", n]],
limit=1` search. -/
structure OdooBackend where
  searchById : Int → List Employee
  searchByEmail : String → List Employee
  searchUserByLogin : String → List ResUser
  readEmployees : List Int → List Employee
  searchFuzzy : String → List Employee

/-- One backend RPC issued by the resolver, recorded in program order. -/
inductive OdooCall where
  | searchById (id : Int)
  | searchByEmail (email : String)
  | searchUserByLogin (email : String)
  | readEmployees (ids : List Int)
  | searchFuzzy (name : String)
deriving DecidableEq, Repr

/-- Resolver failure: `EmployeeNotFoundError(msg)` (user_mapping.py lines
43-45), with the message text it is raised with. -/
inductive ResolveErr where
  | employeeNotFound (msg : String)
deriving DecidableEq, Repr

/-- The process-wide `_employee_cache`: lowercased email to
(normalized employee, expiry). -/
abbrev EmpCache := List (String × NormalizedEmployee × Int)

/-- `_EMPLOYEE_CACHE_TTL = 300` (user_mapping.py line 19). -/
def EMPLOYEE_CACHE_TTL : Int := 300

/-- Embedding of `_get_cached_employee` (user_mapping.py lines 22-32). -/
def getCachedEmployee (cache : EmpCache) (email : String) (now : Int) :
    Option NormalizedEmployee × EmpCache :=
  let key := strToLower email
  match cache.find? (fun e => e.1 == key) with
  | some (_, info, expiry) =>
      if now < expiry then (some info, cache)
      else (none, cache.filter (fun e => e.1 != key))
  | none => (none, cache)

/-- Embedding of `_cache_employee` (user_mapping.py lines 35-40). -/
def cacheEmployee (cache : EmpCache) (email : String)
    (info : NormalizedEmployee) (now : Int) : EmpCache :=
  let key := strToLower email
  (key, info, now + EMPLOYEE_CACHE_TTL) :: cache.filter (fun e => e.1 != key)

/-- The fuzzy-search name derived from the email local part
(user_mapping.py line 167): the part before the first `@`, with dots and
underscores replaced by spaces. -/
def fuzzyEmailName (email : String) : String :=
  strReplaceChar (strReplaceChar (strBeforeFirst email '@') '.' ' ') '_' ' '

/-- The linked employee id a `res.users` record yields (user_mapping.py
lines 144-151): the truthy `employee_id` many2one first, else the head of
a non-empty `employee_ids` list. -/
def linkedEmployeeId (u : ResUser) : Option Int :=
  match u.employee_id with
  | some p => some p.1
  | none => u.employee_ids.head?

/-- Embedding of `get_employee_for_user` (user_mapping.py lines 53-184).
The result is returned together with the updated employee cache and the
list of backend calls issued, in program order (the two searches the code
launches through `asyncio.gather` are recorded in task-creation order:
email search, then login search; both are always issued on reaching that
stage). -/
def get_employee_for_user (claims : TokClaims) (odoo : OdooBackend)
    (cache : EmpCache) (now : Int) :
    Except ResolveErr NormalizedEmployee × EmpCache × List OdooCall :=
  let user_email := pyOrStr claims.email claims.sub
  -- cache check (by email)
  let cacheStep : Option NormalizedEmployee × EmpCache :=
    match user_email with
    | some e => if !strIsEmpty e then getCachedEmployee cache e now
                else (none, cache)
    | none => (none, cache)
  match cacheStep with
  | (some hit, cache') => (.ok hit, cache', [])
  | (none, cache') =>
    -- Strategy 0: direct employee-id claim
    let idResult : Option (NormalizedEmployee × List OdooCall) :=
      if pyTruthyInt claims.odoo_employee_id then
        let i := claims.odoo_employee_id.getD 0
        match odoo.searchById i with
        | emp :: _ => some (normalizeEmployee emp, [.searchById i])
        | [] => none
      else none
    match idResult with
    | some (r, calls) =>
      match user_email with
      | some e =>
        if !strIsEmpty e then (.ok r, cacheEmployee cache' e r now, calls)
        else (.ok r, cache', calls)
      | none => (.ok r, cache', calls)
    | none =>
      let idCalls : List OdooCall :=
        if pyTruthyInt claims.odoo_employee_id then
          [.searchById (claims.odoo_employee_id.getD 0)]
        else []
      if pyTruthyStr user_email then
        let e := user_email.getD ""
        -- parallel searches (Strategy 1 and 2), issued together
        let results_email := odoo.searchByEmail e
        let results_user := odoo.searchUserByLogin e
        let calls := idCalls ++ [.searchByEmail e, .searchUserByLogin e]
        match results_email with
        | emp :: _ =>
          -- one match, or multiple matches (warning logged, first picked)
          let r := normalizeEmployee emp
          (.ok r, cacheEmployee cache' e r now, calls)
        | [] =>
          -- Strategy 2: via res.users linked employee
          let viaUser : Option (NormalizedEmployee × List OdooCall) :=
            match results_user with
            | u :: _ =>
              match linkedEmployeeId u with
              | some empId =>
                match odoo.readEmployees [empId] with
                | emp :: _ =>
                  some (normalizeEmployee emp, calls ++ [.readEmployees [empId]])
                | [] => none
              | none => none
            | [] => none
          match viaUser with
          | some (r, calls') => (.ok r, cacheEmployee cache' e r now, calls')
          | none =>
            let calls' := calls ++
              (match results_user with
               | u :: _ =>
                 match linkedEmployeeId u with
                 | some empId => [OdooCall.readEmployees [empId]]
                 | none => []
               | [] => [])
            -- Strategy 3: fuzzy name match, only over the length threshold
            let email_name := fuzzyEmailName e
            if email_name.length > 3 then
              match odoo.searchFuzzy email_name with
              | emp :: _ =>
                let r := normalizeEmployee emp
                (.ok r, cacheEmployee cache' e r now,
                 calls' ++ [.searchFuzzy email_name])
              | [] =>
                (.error (.employeeNotFound
                   ("No employee found for email: " ++ e)),
                 cache', calls' ++ [.searchFuzzy email_name])
            else
              (.error (.employeeNotFound
                 ("No employee found for email: " ++ e)),
               cache', calls')
      else
        (.error (.employeeNotFound "No email in OAuth token to map to employee"),
         cache', idCalls)

/-- Concrete claims for the C1 witness: internal-domain verified Google
user with no scope claim. -/
def c1Claims : TokClaims :=
  { scope := none, iss := some googleIssuer,
    email := some "jane@keboola.com", email_verified := true,
    sub := some "1" }

/-- Concrete claims refuting C3 as stated: the scope string is present and
non-empty but whitespace-only, the issuer is Google and the email is
verified. -/
def c3Claims : TokClaims :=
  { scope := some " ", iss := some googleIssuer,
    email := some "a@co.com", email_verified := true, sub := some "1" }

/-- Concrete claims for the C3 witness: a two-token scope string issued by
Google. -/
def c3wClaims : TokClaims :=
  { scope := some "openid custom.scope", iss := some googleIssuer,
    email := some "a@co.com", email_verified := true }

/-- Malformed token for the C4 witness: a single segment, no dots. -/
def c4TokMalformed : Token := { parts := ["onepart"] }

/-- Garbage-payload token for the C4 witness: three segments, a valid
RSA header and signature, but an undecodable payload. -/
def c4TokGarbage : Token :=
  { parts := ["h", "p", "s"], headerAlg := some "RS256", sigOk := true }

/-- Token for the C4 witness whose header declares the "none" algorithm,
with a structurally valid signature segment and decodable payload. -/
def c4TokNoneAlg : Token :=
  { parts := ["h", "p", "s"], headerAlg := some "none", sigOk := true,
    payloadClaims := some
      { iss := some "https://auth.example", aud := some "aud",
        exp := some 99 } }

/-- Non-Google validator for the C4 witness. -/
def c4Validator : Validator :=
  mkValidator "https://auth.example" "https://odoo-mcp.keboola.com"

/-- Claims for the C5 witness. -/
def c5Claims : TokClaims := { sub := some "s", email := some "a@co.com" }

/-- Token for the C5 witness (an opaque token string). -/
def c5Tok : Token := { parts := ["opaquetoken"] }

/-- A token cache holding an unexpired entry for `c5Tok`. -/
def c5Cache : TokenCache := [("opaquetoken", c5Claims, 500)]

/-- Tokeninfo response for the C6 counterexample: a valid opaque Google
token with 60 seconds of life left. -/
def c6Info : Tokeninfo :=
  { statusOk := true, aud := some "client-1", expires_in := some 60,
    sub := some "s", email := some "a@co.com",
    email_verified := some "true", scope := some "" }

/-- Opaque (single-segment) token for the C6 counterexample. -/
def c6Tok : Token := { parts := ["opaquetok6"], tokeninfo := some c6Info }

/-- Google validator for the C6 counterexample. -/
def c6Validator : Validator := mkValidator googleIssuer "client-1"

/-- The claims the tokeninfo normalization produces for `c6Tok` (no `exp`
key). -/
def c6Claims : TokClaims :=
  { iss := some googleIssuer, sub := some "s", aud := some "client-1",
    email := some "a@co.com", email_verified := true, scope := some "" }

/-- Claims for the JWT half of the C6 witness: expiry 9999. -/
def c6wClaims : TokClaims :=
  { iss := some "https://auth.example",
    aud := some "https://odoo-mcp.keboola.com", exp := some 9999 }

/-- Structured token for the JWT half of the C6 witness. -/
def c6wTok : Token :=
  { parts := ["h", "p", "s"], headerAlg := some "RS256", sigOk := true,
    payloadClaims := some c6wClaims }

/-- Non-Google validator for the JWT half of the C6 witness. -/
def c6wValidator : Validator :=
  mkValidator "https://auth.example" "https://odoo-mcp.keboola.com"

/-- First of two employees sharing a work email, for the C8 witness. -/
def c8Emp1 : Employee :=
  { id := 7, name := some "Ann B", work_email := some "ann@x.com" }

/-- Second of two employees sharing a work email, for the C8 witness. -/
def c8Emp2 : Employee :=
  { id := 8, name := some "Ann B jr", work_email := some "ann@x.com" }

/-- Backend for the C8 witness: the email search returns two matches. -/
def c8Backend : OdooBackend :=
  { searchById := fun _ => [], searchByEmail := fun _ => [c8Emp1, c8Emp2],
    searchUserByLogin := fun _ => [], readEmployees := fun _ => [],
    searchFuzzy := fun _ => [] }

/-- Claims for the C8 witness. -/
def c8Claims : TokClaims := { email := some "Ann@X.com" }

/-- Backend for the C9 witness: every query returns nothing. -/
def c9Backend : OdooBackend :=
  { searchById := fun _ => [], searchByEmail := fun _ => [],
    searchUserByLogin := fun _ => [], readEmployees := fun _ => [],
    searchFuzzy := fun _ => [] }

/-- Claims for the C9 witness: the local part "ab" is under the fuzzy
length threshold. -/
def c9Claims : TokClaims := { email := some "ab@x.com" }

/-- Employee returned by the email search in the C7 counterexample. -/
def c7Emp : Employee :=
  { id := 7, name := some "A B", work_email := some "a@b.com" }

/-- Backend for the C7 counterexample: the id fetch finds nothing, the
email search succeeds, the login search also returns a record. -/
def c7Backend : OdooBackend :=
  { searchById := fun _ => [], searchByEmail := fun _ => [c7Emp],
    searchUserByLogin := fun _ => [{ id := 9, employee_id := some (7, "A B") }],
    readEmployees := fun _ => [], searchFuzzy := fun _ => [] }

/-- Claims for the C7 counterexample: a pre-known employee id 5. -/
def c7Claims : TokClaims :=
  { email := some "a@b.com", odoo_employee_id := some 5 }

/-- Employee found by id for the C7 witness. -/
def c7wEmp : Employee :=
  { id := 5, name := some "C D", work_email := some "c@d.com" }

/-- Backend for the C7 witness: the id fetch succeeds. -/
def c7wBackend : OdooBackend :=
  { searchById := fun _ => [c7wEmp], searchByEmail := fun _ => [],
    searchUserByLogin := fun _ => [], readEmployees := fun _ => [],
    searchFuzzy := fun _ => [] }

/-- Claims for the C7 witness. -/
def c7wClaims : TokClaims :=
  { email := some "a@b.com", odoo_employee_id := some 5 }

/-! ## Theorems -/

/-- `strIsEmpty` detects exactly the empty string. -/
theorem strIsEmpty_iff (s : String) : strIsEmpty s = true ↔ s = "" := by
  simp [strIsEmpty]

/-- `strIsEmpty` holds on the empty string. -/
theorem strIsEmpty_empty : strIsEmpty "" = true := by decide

/-- `strIsEmpty` is false exactly on non-empty strings. -/
theorem strIsEmpty_eq_false (s : String) (h : s ≠ "") :
    strIsEmpty s = false := by
  cases he : strIsEmpty s
  · rfl
  · exact absurd ((strIsEmpty_iff s).mp he) h

/-- C2: for every required set R and granted set G, the scope gate
authorizes exactly when R and G share at least one capability; required
{A, B} with granted {B} is authorized and with granted {C} is denied.
The gate is a plain total boolean function of its two arguments. -/
theorem check_scope_access_iff_shared :
    (∀ required granted : List String,
      check_scope_access required granted = true ↔
        ∃ s, s ∈ required ∧ s ∈ granted) ∧
    check_scope_access ["A", "B"] ["B"] = true ∧
    check_scope_access ["A", "B"] ["C"] = false := by
  refine ⟨?_, by decide, by decide⟩
  intro required granted
  simp [check_scope_access, List.any_eq_true]

/-- C10: a tool name absent from the static scope table gets the required
list `["odoo.read"]` in both the tools/list filter and the tools/call
gate, so a principal granted `odoo.read` passes the gate for any such
tool. -/
theorem unknown_tool_defaults_to_read :
    ∀ toolName : String,
      (∀ p ∈ TOOL_SCOPE_REQUIREMENTS, p.1 ≠ toolName) →
      toolRequiredScopes toolName = ["odoo.read"] ∧
      (∀ granted : List String, "odoo.read" ∈ granted →
        toolsCallAuthorized toolName granted = true ∧
        ∀ tools : List String, toolName ∈ tools →
          toolName ∈ toolsListAccessible tools granted) := by
  intro toolName h
  have hfind : TOOL_SCOPE_REQUIREMENTS.find? (fun p => p.1 == toolName) = none := by
    rw [List.find?_eq_none]
    intro x hx
    simpa using h x hx
  have hreq : toolRequiredScopes toolName = ["odoo.read"] := by
    simp [toolRequiredScopes, hfind]
  refine ⟨hreq, ?_⟩
  intro granted hg
  have hauth : toolsCallAuthorized toolName granted = true := by
    simp [toolsCallAuthorized, hreq, check_scope_access]
    exact hg
  refine ⟨hauth, ?_⟩
  intro tools ht
  rw [toolsListAccessible, List.mem_filter]
  exact ⟨ht, by simpa [toolsCallAuthorized] using hauth⟩

/-- Witness for C10 at a tool name outside the table, with the single
granted scope `odoo.read`. -/
theorem unknown_tool_defaults_to_read_witness :
    toolRequiredScopes "crm_export" = ["odoo.read"] ∧
    toolsCallAuthorized "crm_export" ["odoo.read"] = true := by
  have h := unknown_tool_defaults_to_read "crm_export" (by decide)
  exact ⟨h.1, (h.2 ["odoo.read"] (by decide)).1⟩

/-- C1: for a claims map with an empty scope string, Google issuer, a
present (non-empty) verified email, `extract_user_context` yields the
identity plus default read/self-service scopes, and the write and
document-write scopes exactly when the email is on the internal
`@keboola.com` domain. -/
theorem extract_default_grant (c : TokClaims) (e : String)
    (hscope : c.scope.getD "" = "")
    (hiss : c.iss = some googleIssuer)
    (hemail : c.email = some e)
    (hne : e ≠ "")
    (hver : c.email_verified = true) :
    (∀ s ∈ defaultGoogleScopes, s ∈ (extract_user_context c).scopes) ∧
    ("odoo.write" ∈ (extract_user_context c).scopes ↔
      strEndsWith e "@keboola.com") ∧
    ("odoo.documents.write" ∈ (extract_user_context c).scopes ↔
      strEndsWith e "@keboola.com") := by
  have hie : strIsEmpty e = false := strIsEmpty_eq_false e hne
  have hse : (extract_user_context c).scopes =
      defaultGoogleScopes ++
        (if strEndsWith e "@keboola.com" then internalExtraScopes else []) := by
    simp [extract_user_context, hscope, hiss, hemail, hver, hie,
      strIsEmpty_empty]
  refine ⟨?_, ?_, ?_⟩
  · intro s hs
    rw [hse]
    exact List.mem_append_left _ hs
  · rw [hse]
    cases hk : strEndsWith e "@keboola.com" <;>
      simp [hk, defaultGoogleScopes, internalExtraScopes]
  · rw [hse]
    cases hk : strEndsWith e "@keboola.com" <;>
      simp [hk, defaultGoogleScopes, internalExtraScopes]

/-- Witness for C1 at a concrete internal-domain claims map. -/
theorem extract_default_grant_witness :
    (∀ s ∈ defaultGoogleScopes, s ∈ (extract_user_context c1Claims).scopes) ∧
    ("odoo.write" ∈ (extract_user_context c1Claims).scopes ↔
      strEndsWith "jane@keboola.com" "@keboola.com") ∧
    ("odoo.documents.write" ∈ (extract_user_context c1Claims).scopes ↔
      strEndsWith "jane@keboola.com" "@keboola.com") :=
  extract_default_grant c1Claims "jane@keboola.com" rfl rfl rfl
    (by decide) rfl

/-- Counterexample to C3: for the claims map `c3Claims` the scope claim is
a present, non-empty string, yet the yielded scopes are not the
whitespace-split tokens of that string (which are none): the default-grant
scopes, among them `odoo.read`, are injected. -/
theorem extract_exact_scopes_counterexample :
    (c3Claims.scope = some " " ∧ (" " : String) ≠ "") ∧
    pySplitWs " " = [] ∧
    (extract_user_context c3Claims).scopes ≠ pySplitWs " " ∧
    "odoo.read" ∈ (extract_user_context c3Claims).scopes := by
  refine ⟨⟨rfl, by decide⟩, by decide, by decide, by decide⟩

/-- C3 amended: for every claims map whose scope string whitespace-splits
to a non-empty token list (in particular any non-blank scope string),
`extract_user_context` yields exactly those tokens, regardless of issuer,
and never adds default-grant scopes on top. -/
theorem extract_exact_scopes_amended (c : TokClaims)
    (h : pySplitWs (c.scope.getD "") ≠ []) :
    (extract_user_context c).scopes = pySplitWs (c.scope.getD "") := by
  have hstr : strIsEmpty (c.scope.getD "") = false := by
    apply strIsEmpty_eq_false
    intro he
    rw [he] at h
    exact absurd (by decide) h
  have hne : (pySplitWs (c.scope.getD "")).isEmpty = false := by
    cases hl : (pySplitWs (c.scope.getD "")).isEmpty
    · rfl
    · exact absurd (List.isEmpty_iff.mp hl) h
  simp [extract_user_context, hstr, hne]

/-- Witness for the amended C3 at a concrete claims map: the yielded
scopes are exactly the split tokens. -/
theorem extract_exact_scopes_amended_witness :
    (extract_user_context c3wClaims).scopes =
      pySplitWs (c3wClaims.scope.getD "") :=
  extract_exact_scopes_amended c3wClaims (by decide)

/-- On an undecodable payload, the PyJWT pipeline always errors. -/
theorem decodeJwt_error_of_no_payload (t : Token) (algs : List String)
    (issuer audience : String) (re : Bool) (now : Int)
    (h : t.payloadClaims = none) :
    ∃ err, decodeJwt t algs issuer audience re now = .error err := by
  unfold decodeJwt
  cases halg : t.headerAlg with
  | none => exact ⟨_, rfl⟩
  | some alg =>
    by_cases hm : alg ∈ algs
    · cases hs : t.sigOk with
      | false => exact ⟨.invalidToken "signature verification failed",
          by simp [hm, hs]⟩
      | true => exact ⟨.invalidToken "cannot decode payload",
          by simp [hm, hs, h]⟩
    · exact ⟨.invalidToken "algorithm not allowed", by simp [hm]⟩

/-- An algorithm outside the allow-list is rejected before anything else
about the token is considered, signature validity included. -/
theorem decodeJwt_error_of_alg_not_allowed (t : Token) (algs : List String)
    (issuer audience : String) (re : Bool) (now : Int) (alg : String)
    (halg : t.headerAlg = some alg) (h : alg ∉ algs) :
    decodeJwt t algs issuer audience re now =
      .error (.invalidToken "algorithm not allowed") := by
  unfold decodeJwt
  simp [halg, h]

/-- A successful PyJWT decode yields claims with a present, not-yet-past
expiry (the `exp` claim is in the `require` list and `verify_exp` is on). -/
theorem decodeJwt_ok_exp (t : Token) (algs : List String)
    (issuer audience : String) (re : Bool) (now : Int) (c : TokClaims)
    (h : decodeJwt t algs issuer audience re now = .ok c) :
    ∃ e, c.exp = some e ∧ now ≤ e := by
  unfold decodeJwt at h
  repeat' split at h
  all_goals try exact Except.noConfusion h
  rename_i hreq hlt hiss haud
  injection h with h2
  rw [h2] at hreq hlt
  have hexp : c.exp.isNone = false := by
    cases hx : c.exp.isNone
    · rfl
    · exact absurd (by simp [hx]) hreq
  cases he : c.exp with
  | none => rw [he] at hexp; simp at hexp
  | some e0 =>
    refine ⟨e0, rfl, ?_⟩
    rw [he] at hlt
    simpa using hlt

/-- Claims normalized from the Google tokeninfo response carry no `exp`
key. -/
theorem validateGoogle_ok_exp_none (v : Validator) (t : Token)
    (c : TokClaims) (h : validateGoogleAccessToken v t = .ok c) :
    c.exp = none := by
  unfold validateGoogleAccessToken at h
  repeat' split at h
  all_goals simp only [Except.ok.injEq, reduceCtorEq] at h
  all_goals (subst h; rfl)

/-- The entry `cacheClaims` stores is found under the token key, with the
expiry `_cache_claims` computes. -/
theorem cacheClaims_find (cache : TokenCache) (key : String)
    (c : TokClaims) (now : Int) :
    (cacheClaims cache key c now).find? (fun x => x.1 == key) =
      some (key, c,
        match c.exp with
        | some e => if e != 0 then min e (now + TOKEN_CACHE_TTL)
                    else now + TOKEN_CACHE_TTL
        | none => now + TOKEN_CACHE_TTL) := by
  simp [cacheClaims, List.find?]

/-- C4: a token with the wrong dot-segment count is rejected outright when
the issuer is not Google; a three-segment token with a garbage payload is
always rejected; the two algorithm allow-lists contain no "none" and no
symmetric algorithm; and a token whose header declares an algorithm
outside both allow-lists is rejected even with a valid signature segment.
Every rejection is a `VErr`, i.e. an authentication-class validation
error, and no claims are returned. -/
theorem validate_rejects_malformed :
    (∀ (v : Validator) (cache : TokenCache) (t : Token) (now : Int),
      (getCachedClaims cache (tokenKey t) now).1 = none →
      v.is_google = false →
      t.parts.length ≠ 3 →
      (validate v cache t now).1 =
        .error (.invalidToken "Invalid JWT format")) ∧
    (∀ (v : Validator) (cache : TokenCache) (t : Token) (now : Int),
      (getCachedClaims cache (tokenKey t) now).1 = none →
      t.parts.length = 3 →
      t.payloadClaims = none →
      ∃ err, (validate v cache t now).1 = .error err) ∧
    (∀ alg, alg = "none" ∨ alg = "HS256" ∨ alg = "HS384" ∨ alg = "HS512" →
      alg ∉ googleAllowedAlgs ∧ alg ∉ standardAllowedAlgs) ∧
    (∀ (v : Validator) (cache : TokenCache) (t : Token) (now : Int)
        (alg : String),
      (getCachedClaims cache (tokenKey t) now).1 = none →
      t.parts.length = 3 →
      t.headerAlg = some alg →
      alg ∉ googleAllowedAlgs → alg ∉ standardAllowedAlgs →
      (validate v cache t now).1 =
        .error (.invalidToken "algorithm not allowed")) := by
  refine ⟨?_, ?_, ?_, ?_⟩
  · intro v cache t now hmiss hng hlen
    rcases hg : getCachedClaims cache (tokenKey t) now with ⟨o, cc⟩
    rw [hg] at hmiss
    cases o with
    | some c => simp at hmiss
    | none => simp [validate, hg, hng, hlen]
  · intro v cache t now hmiss hlen hpay
    rcases hg : getCachedClaims cache (tokenKey t) now with ⟨o, cc⟩
    rw [hg] at hmiss
    cases o with
    | some c => simp at hmiss
    | none =>
      cases hgo : v.is_google with
      | false =>
        obtain ⟨err, herr⟩ := decodeJwt_error_of_no_payload t
          standardAllowedAlgs v.issuer v.audience false now hpay
        exact ⟨err, by simp [validate, hg, hgo, hlen, herr]⟩
      | true =>
        obtain ⟨err, herr⟩ := decodeJwt_error_of_no_payload t
          googleAllowedAlgs v.issuer v.audience true now hpay
        exact ⟨err, by simp [validate, hg, hgo, hlen, herr]⟩
  · intro alg h
    rcases h with h | h | h | h <;> subst h <;> exact ⟨by decide, by decide⟩
  · intro v cache t now alg hmiss hlen halg hng hns
    rcases hg : getCachedClaims cache (tokenKey t) now with ⟨o, cc⟩
    rw [hg] at hmiss
    cases o with
    | some c => simp at hmiss
    | none =>
      cases hgo : v.is_google with
      | false =>
        have herr := decodeJwt_error_of_alg_not_allowed t standardAllowedAlgs
          v.issuer v.audience false now alg halg hns
        simp [validate, hg, hgo, hlen, herr]
      | true =>
        have herr := decodeJwt_error_of_alg_not_allowed t googleAllowedAlgs
          v.issuer v.audience true now alg halg hng
        simp [validate, hg, hgo, hlen, herr]

/-- Witness for C4 at concrete malformed tokens and the "none"
algorithm. -/
theorem validate_rejects_malformed_witness :
    (validate c4Validator [] c4TokMalformed 0).1 =
      .error (.invalidToken "Invalid JWT format") ∧
    (∃ err, (validate c4Validator [] c4TokGarbage 0).1 = .error err) ∧
    ("none" ∉ googleAllowedAlgs ∧ "none" ∉ standardAllowedAlgs) ∧
    (validate c4Validator [] c4TokNoneAlg 0).1 =
      .error (.invalidToken "algorithm not allowed") := by
  refine ⟨?_, ?_, ?_, ?_⟩
  · exact validate_rejects_malformed.1 c4Validator [] c4TokMalformed 0 rfl
      (by decide) (by decide)
  · exact validate_rejects_malformed.2.1 c4Validator [] c4TokGarbage 0 rfl
      (by decide) rfl
  · exact validate_rejects_malformed.2.2.1 "none" (Or.inl rfl)
  · exact validate_rejects_malformed.2.2.2 c4Validator [] c4TokNoneAlg 0
      "none" rfl (by decide) rfl (by decide) (by decide)

/-- C5: when the token cache holds an entry for the token whose expiry is
still in the future, `validate` returns exactly the cached claims, leaves
the cache unchanged and performs no network call (third component
`false`). -/
theorem validate_cache_hit_no_network (v : Validator) (cache : TokenCache)
    (t : Token) (now : Int) (k : String) (c : TokClaims) (expiry : Int)
    (hfind : cache.find? (fun x => x.1 == tokenKey t) = some (k, c, expiry))
    (hexp : now < expiry) :
    validate v cache t now = (.ok c, cache, false) := by
  have hg : getCachedClaims cache (tokenKey t) now = (some c, cache) := by
    simp [getCachedClaims, hfind, hexp]
  simp [validate, hg]

/-- Witness for C5: a cache hit at time 100 against an entry expiring at
500 returns the cached claims with no network call. -/
theorem validate_cache_hit_no_network_witness :
    validate (mkValidator googleIssuer "client-1") c5Cache c5Tok 100 =
      (.ok c5Claims, c5Cache, false) :=
  validate_cache_hit_no_network (mkValidator googleIssuer "client-1")
    c5Cache c5Tok 100 "opaquetoken" c5Claims 500 (by decide) (by decide)

/-- Counterexample to C6: the opaque Google token `c6Tok` reports 60
seconds of remaining life (own expiry 1060 at now = 1000), yet the cache
entry is stored with expiry 1300 = now + TTL, not
min(own expiry, now + TTL) = 1060 — so the cached claims outlive the
token's own expiry. -/
theorem validate_cache_expiry_counterexample :
    validate c6Validator [] c6Tok 1000 =
      (.ok c6Claims, [(tokenKey c6Tok, c6Claims, 1300)], true) ∧
    c6Info.expires_in = some 60 ∧
    (1300 : Int) ≠ min (1000 + 60) (1000 + TOKEN_CACHE_TTL) := by
  refine ⟨rfl, rfl, by decide⟩

/-- C6 amended: the stored cache expiry is min(token expiry, now + TTL)
only on the structured-JWT validation paths, whose claims must carry a
future `exp`; on the opaque Google introspection path the normalized
claims carry no `exp`, so the entry is stored with expiry now + TTL
regardless of the token's own remaining lifetime. -/
theorem validate_cache_expiry_amended :
    (∀ (v : Validator) (cache : TokenCache) (t : Token) (now : Int)
        (c : TokClaims) (cache2 : TokenCache) (net : Bool),
      (getCachedClaims cache (tokenKey t) now).1 = none →
      t.parts.length = 3 → 1 ≤ now →
      validate v cache t now = (.ok c, cache2, net) →
      ∃ e, c.exp = some e ∧
        cache2.find? (fun x => x.1 == tokenKey t) =
          some (tokenKey t, c, min e (now + TOKEN_CACHE_TTL))) ∧
    (∀ (v : Validator) (cache : TokenCache) (t : Token) (now : Int)
        (c : TokClaims) (cache2 : TokenCache) (net : Bool),
      (getCachedClaims cache (tokenKey t) now).1 = none →
      t.parts.length ≠ 3 →
      validate v cache t now = (.ok c, cache2, net) →
      c.exp = none ∧
        cache2.find? (fun x => x.1 == tokenKey t) =
          some (tokenKey t, c, now + TOKEN_CACHE_TTL)) := by
  constructor
  · intro v cache t now c cache2 net hmiss hlen hnow hval
    rcases hg : getCachedClaims cache (tokenKey t) now with ⟨o, cc⟩
    rw [hg] at hmiss
    cases o with
    | some c0 => simp at hmiss
    | none =>
      simp only [validate, hg, hlen] at hval
      norm_num at hval
      have hmin : ∀ (c1 : TokClaims) (e : Int), c1.exp = some e → now ≤ e →
          (cacheClaims cc (tokenKey t) c1 now).find?
              (fun x => x.1 == tokenKey t) =
            some (tokenKey t, c1, min e (now + TOKEN_CACHE_TTL)) := by
        intro c1 e he hle
        rw [cacheClaims_find, he]
        have : (e != 0) = true := by
          simp only [bne_iff_ne, ne_eq]
          omega
        simp [this]
      repeat' split at hval
      all_goals try exact Except.noConfusion (congrArg Prod.fst hval)
      · rename_i c1 heq hazp
        have hc : Except.ok c1 = Except.ok c := congrArg Prod.fst hval
        have hcache : cacheClaims cc (tokenKey t) c1 now = cache2 :=
          congrArg (fun p => p.2.1) hval
        injection hc with hc2
        subst hc2
        subst hcache
        obtain ⟨e, he, hle⟩ := decodeJwt_ok_exp t googleAllowedAlgs
          v.issuer v.audience true now c1 heq
        exact ⟨e, he, hmin c1 e he hle⟩
      · rename_i c1 heq
        have hc : Except.ok c1 = Except.ok c := congrArg Prod.fst hval
        have hcache : cacheClaims cc (tokenKey t) c1 now = cache2 :=
          congrArg (fun p => p.2.1) hval
        injection hc with hc2
        subst hc2
        subst hcache
        obtain ⟨e, he, hle⟩ := decodeJwt_ok_exp t standardAllowedAlgs
          v.issuer v.audience false now c1 heq
        exact ⟨e, he, hmin c1 e he hle⟩
  · intro v cache t now c cache2 net hmiss hlen hval
    rcases hg : getCachedClaims cache (tokenKey t) now with ⟨o, cc⟩
    rw [hg] at hmiss
    cases o with
    | some c0 => simp at hmiss
    | none =>
      simp only [validate, hg] at hval
      have hlen2 : (t.parts.length != 3) = true := by
        simpa using hlen
      rw [hlen2] at hval
      simp only [if_true] at hval
      repeat' split at hval
      all_goals try exact Except.noConfusion (congrArg Prod.fst hval)
      rename_i c1 heq
      have hc : Except.ok c1 = Except.ok c := congrArg Prod.fst hval
      have hcache : cacheClaims cc (tokenKey t) c1 now = cache2 :=
        congrArg (fun p => p.2.1) hval
      injection hc with hc2
      subst hc2
      subst hcache
      have hnone : c1.exp = none :=
        validateGoogle_ok_exp_none v t c1 heq
      refine ⟨hnone, ?_⟩
      rw [cacheClaims_find, hnone]

/-- Witness for the amended C6: a structured token stores
min(exp, now + TTL); the opaque token `c6Tok` stores now + TTL. -/
theorem validate_cache_expiry_amended_witness :
    (∃ e, c6wClaims.exp = some e ∧
      (([(tokenKey c6wTok, c6wClaims, 1300)] : TokenCache).find?
        (fun x => x.1 == tokenKey c6wTok)) =
        some (tokenKey c6wTok, c6wClaims, min e (1000 + TOKEN_CACHE_TTL))) ∧
    (c6Claims.exp = none ∧
      (([(tokenKey c6Tok, c6Claims, 1300)] : TokenCache).find?
        (fun x => x.1 == tokenKey c6Tok)) =
        some (tokenKey c6Tok, c6Claims, 1000 + TOKEN_CACHE_TTL)) :=
  ⟨validate_cache_expiry_amended.1 c6wValidator [] c6wTok 1000 c6wClaims
      [(tokenKey c6wTok, c6wClaims, 1300)] true rfl rfl (by decide) rfl,
   validate_cache_expiry_amended.2 c6Validator [] c6Tok 1000 c6Claims
      [(tokenKey c6Tok, c6Claims, 1300)] true rfl (by decide) rfl⟩

/-- C8: when the earlier strategies fail (no usable cache entry, no
usable id claim) and the email search returns more than one employee,
the resolver raises no error: it returns the first record normalized and
caches it under the lowercased email like any successful resolution. -/
theorem resolver_ambiguous_email_first (claims : TokClaims)
    (odoo : OdooBackend) (cache : EmpCache) (now : Int) (e : String)
    (emp e2 : Employee) (rest : List Employee)
    (hue : pyOrStr claims.email claims.sub = some e)
    (hne : strIsEmpty e = false)
    (hmiss : (getCachedEmployee cache e now).1 = none)
    (hid : ∀ i, claims.odoo_employee_id = some i → i ≠ 0 →
      odoo.searchById i = [])
    (hsearch : odoo.searchByEmail e = emp :: e2 :: rest) :
    (get_employee_for_user claims odoo cache now).1 =
      .ok (normalizeEmployee emp) ∧
    (get_employee_for_user claims odoo cache now).2.1.find?
        (fun x => x.1 == strToLower e) =
      some (strToLower e, normalizeEmployee emp, now + EMPLOYEE_CACHE_TTL) := by
  rcases hgc : getCachedEmployee cache e now with ⟨o, cc⟩
  rw [hgc] at hmiss
  cases o with
  | some x => simp at hmiss
  | none =>
    have hres : get_employee_for_user claims odoo cache now =
        (.ok (normalizeEmployee emp),
         cacheEmployee cc e (normalizeEmployee emp) now,
         (if pyTruthyInt claims.odoo_employee_id then
            [OdooCall.searchById (claims.odoo_employee_id.getD 0)]
          else []) ++
           [.searchByEmail e, .searchUserByLogin e]) := by
      cases hoid : claims.odoo_employee_id with
      | none =>
        simp [get_employee_for_user, hue, hne, hgc, hoid, hsearch,
          pyTruthyInt, pyTruthyStr]
      | some i =>
        by_cases hiz : i = 0
        · subst hiz
          simp [get_employee_for_user, hue, hne, hgc, hoid, hsearch,
            pyTruthyInt, pyTruthyStr]
        · have hbyid := hid i hoid hiz
          simp [get_employee_for_user, hue, hne, hgc, hoid, hsearch, hbyid,
            pyTruthyInt, pyTruthyStr, hiz]
    rw [hres]
    exact ⟨rfl, by simp [cacheEmployee, List.find?]⟩

/-- Witness for C8: two email matches resolve to the first, cached under
the lowercased email. -/
theorem resolver_ambiguous_email_first_witness :
    (get_employee_for_user c8Claims c8Backend [] 0).1 =
      .ok (normalizeEmployee c8Emp1) ∧
    (get_employee_for_user c8Claims c8Backend [] 0).2.1.find?
        (fun x => x.1 == strToLower "Ann@X.com") =
      some (strToLower "Ann@X.com", normalizeEmployee c8Emp1,
        0 + EMPLOYEE_CACHE_TTL) :=
  resolver_ambiguous_email_first c8Claims c8Backend [] 0 "Ann@X.com"
    c8Emp1 c8Emp2 [] rfl rfl rfl
    (fun _ h _ => Option.noConfusion h) rfl

/-- C9: when no strategy can match (cache miss, no usable id claim, empty
email search, no employee reachable through the login search) and the
fuzzy name derived from the email local part does not exceed the length
threshold of 3, the resolver raises `EmployeeNotFoundError` carrying the
attempted email, and never issues the fuzzy name search. -/
theorem resolver_short_fuzzy_not_found (claims : TokClaims)
    (odoo : OdooBackend) (cache : EmpCache) (now : Int) (e : String)
    (hue : pyOrStr claims.email claims.sub = some e)
    (hne : strIsEmpty e = false)
    (hmiss : (getCachedEmployee cache e now).1 = none)
    (hid : ∀ i, claims.odoo_employee_id = some i → i ≠ 0 →
      odoo.searchById i = [])
    (hemail : odoo.searchByEmail e = [])
    (huser : ∀ u us, odoo.searchUserByLogin e = u :: us →
      ∀ j, linkedEmployeeId u = some j → odoo.readEmployees [j] = [])
    (hlen : ¬ (fuzzyEmailName e).length > 3) :
    (get_employee_for_user claims odoo cache now).1 =
      .error (.employeeNotFound ("No employee found for email: " ++ e)) ∧
    ∀ n, OdooCall.searchFuzzy n ∉
      (get_employee_for_user claims odoo cache now).2.2 := by
  rcases hgc : getCachedEmployee cache e now with ⟨o, cc⟩
  rw [hgc] at hmiss
  cases o with
  | some x => simp at hmiss
  | none =>
    have hread : ∀ tail : List OdooCall,
        (∀ n, OdooCall.searchFuzzy n ∉ tail) →
        get_employee_for_user claims odoo cache now =
          ((.error (.employeeNotFound ("No employee found for email: " ++ e))),
           cc,
           (if pyTruthyInt claims.odoo_employee_id then
              [OdooCall.searchById (claims.odoo_employee_id.getD 0)]
            else []) ++
             [.searchByEmail e, .searchUserByLogin e] ++ tail) →
        (get_employee_for_user claims odoo cache now).1 =
            .error (.employeeNotFound ("No employee found for email: " ++ e)) ∧
          ∀ n, OdooCall.searchFuzzy n ∉
            (get_employee_for_user claims odoo cache now).2.2 := by
      intro tail htail heq
      rw [heq]
      refine ⟨rfl, ?_⟩
      intro n
      simp only [List.append_assoc, List.mem_append]
      rintro (hin | hin | hin)
      · cases hoid : claims.odoo_employee_id with
        | none => simp [pyTruthyInt, hoid] at hin
        | some i =>
          rw [hoid] at hin
          by_cases hiz : (i != 0) = true
          · simp [pyTruthyInt, hiz] at hin
          · simp [pyTruthyInt, hiz] at hin
      · simp at hin
      · exact htail n hin
    cases huserres : odoo.searchUserByLogin e with
    | nil =>
      refine hread [] (by simp) ?_
      cases hoid : claims.odoo_employee_id with
      | none =>
        simp [get_employee_for_user, hue, hne, hgc, hoid, hemail, huserres,
          hlen, pyTruthyInt, pyTruthyStr]
      | some i =>
        by_cases hiz : i = 0
        · subst hiz
          simp [get_employee_for_user, hue, hne, hgc, hoid, hemail, huserres,
            hlen, pyTruthyInt, pyTruthyStr]
        · have hbyid := hid i hoid hiz
          simp [get_employee_for_user, hue, hne, hgc, hoid, hemail, huserres,
            hlen, hbyid, pyTruthyInt, pyTruthyStr, hiz]
    | cons u us =>
      cases hlink : linkedEmployeeId u with
      | none =>
        refine hread [] (by simp) ?_
        cases hoid : claims.odoo_employee_id with
        | none =>
          simp [get_employee_for_user, hue, hne, hgc, hoid, hemail, huserres,
            hlink, hlen, pyTruthyInt, pyTruthyStr]
        | some i =>
          by_cases hiz : i = 0
          · subst hiz
            simp [get_employee_for_user, hue, hne, hgc, hoid, hemail,
              huserres, hlink, hlen, pyTruthyInt, pyTruthyStr]
          · have hbyid := hid i hoid hiz
            simp [get_employee_for_user, hue, hne, hgc, hoid, hemail,
              huserres, hlink, hlen, hbyid, pyTruthyInt, pyTruthyStr, hiz]
      | some j =>
        have hrd := huser u us huserres j hlink
        refine hread [.readEmployees [j]] (by simp) ?_
        cases hoid : claims.odoo_employee_id with
        | none =>
          simp [get_employee_for_user, hue, hne, hgc, hoid, hemail, huserres,
            hlink, hrd, hlen, pyTruthyInt, pyTruthyStr]
        | some i =>
          by_cases hiz : i = 0
          · subst hiz
            simp [get_employee_for_user, hue, hne, hgc, hoid, hemail,
              huserres, hlink, hrd, hlen, pyTruthyInt, pyTruthyStr]
          · have hbyid := hid i hoid hiz
            simp [get_employee_for_user, hue, hne, hgc, hoid, hemail,
              huserres, hlink, hrd, hlen, hbyid, pyTruthyInt, pyTruthyStr,
              hiz]

/-- Witness for C9: no strategy matches "ab@x.com" and the derived fuzzy
name "ab" is too short, so the resolver fails carrying the email and the
trace has no fuzzy search. -/
theorem resolver_short_fuzzy_not_found_witness :
    (get_employee_for_user c9Claims c9Backend [] 0).1 =
      .error (.employeeNotFound
        ("No employee found for email: " ++ "ab@x.com")) ∧
    ∀ n, OdooCall.searchFuzzy n ∉
      (get_employee_for_user c9Claims c9Backend [] 0).2.2 :=
  resolver_short_fuzzy_not_found c9Claims c9Backend [] 0 "ab@x.com"
    rfl rfl rfl (fun _ h _ => Option.noConfusion h)
    rfl (fun _ _ h => List.noConfusion h) (by decide)

/-- Counterexample to C7: the principal carries employee id 5 and has no
cache entry; the id fetch fails and the email search yields a record, so
under the claim the login-linked-account search must not be attempted —
yet the resolver issues it (it is launched in the same `asyncio.gather`
as the email search). -/
theorem resolver_strategy_order_counterexample :
    c7Claims.odoo_employee_id = some 5 ∧
    (getCachedEmployee [] "a@b.com" 0).1 = none ∧
    c7Backend.searchById 5 = [] ∧
    c7Backend.searchByEmail "a@b.com" = [c7Emp] ∧
    (get_employee_for_user c7Claims c7Backend [] 0).1 =
      .ok (normalizeEmployee c7Emp) ∧
    OdooCall.searchUserByLogin "a@b.com" ∈
      (get_employee_for_user c7Claims c7Backend [] 0).2.2 := by
  refine ⟨rfl, rfl, rfl, rfl, rfl, ?_⟩
  have htr : (get_employee_for_user c7Claims c7Backend [] 0).2.2 =
      [.searchById 5, .searchByEmail "a@b.com",
       .searchUserByLogin "a@b.com"] := rfl
  rw [htr]
  simp

/-- C7 amended: the direct fetch-by-id strategy runs first; if it yields a
record no other backend call is made; when it fails, the email search and
the login-linked-account search are issued together (in one gather), and
only the remaining strategies are conditional on prior failure. -/
theorem resolver_id_claim_first (claims : TokClaims) (odoo : OdooBackend)
    (cache : EmpCache) (now : Int) (i : Int) (e : String)
    (hoid : claims.odoo_employee_id = some i) (hiz : i ≠ 0)
    (hue : pyOrStr claims.email claims.sub = some e)
    (hne : strIsEmpty e = false)
    (hmiss : (getCachedEmployee cache e now).1 = none) :
    ((get_employee_for_user claims odoo cache now).2.2.head? =
      some (.searchById i)) ∧
    (∀ emp rest2, odoo.searchById i = emp :: rest2 →
      (get_employee_for_user claims odoo cache now).1 =
        .ok (normalizeEmployee emp) ∧
      (get_employee_for_user claims odoo cache now).2.2 =
        [.searchById i]) ∧
    (odoo.searchById i = [] →
      ∃ tail, (get_employee_for_user claims odoo cache now).2.2 =
        .searchById i :: .searchByEmail e :: .searchUserByLogin e ::
          tail) := by
  rcases hgc : getCachedEmployee cache e now with ⟨o, cc⟩
  rw [hgc] at hmiss
  cases o with
  | some x => simp at hmiss
  | none =>
    have hsucc : ∀ emp rest2, odoo.searchById i = emp :: rest2 →
        get_employee_for_user claims odoo cache now =
          (.ok (normalizeEmployee emp),
           cacheEmployee cc e (normalizeEmployee emp) now,
           [.searchById i]) := by
      intro emp rest2 hby
      simp [get_employee_for_user, hue, hne, hgc, hoid, hby, hiz,
        pyTruthyInt, pyTruthyStr]
    have hfail : odoo.searchById i = [] →
        ∃ tail, (get_employee_for_user claims odoo cache now).2.2 =
          .searchById i :: .searchByEmail e :: .searchUserByLogin e ::
            tail := by
      intro hby
      cases hem : odoo.searchByEmail e with
      | cons emp rest2 =>
        exact ⟨[], by simp [get_employee_for_user, hue, hne, hgc, hoid, hby,
          hem, hiz, pyTruthyInt, pyTruthyStr]⟩
      | nil =>
        cases hus : odoo.searchUserByLogin e with
        | nil =>
          by_cases hfl : (fuzzyEmailName e).length > 3
          · cases hfz : odoo.searchFuzzy (fuzzyEmailName e) with
            | cons f fr =>
              exact ⟨[.searchFuzzy (fuzzyEmailName e)],
                by simp [get_employee_for_user, hue, hne, hgc, hoid, hby,
                  hem, hus, hfl, hfz, hiz, pyTruthyInt, pyTruthyStr]⟩
            | nil =>
              exact ⟨[.searchFuzzy (fuzzyEmailName e)],
                by simp [get_employee_for_user, hue, hne, hgc, hoid, hby,
                  hem, hus, hfl, hfz, hiz, pyTruthyInt, pyTruthyStr]⟩
          · exact ⟨[], by simp [get_employee_for_user, hue, hne, hgc, hoid,
              hby, hem, hus, hfl, hiz, pyTruthyInt, pyTruthyStr]⟩
        | cons u us =>
          cases hlink : linkedEmployeeId u with
          | none =>
            by_cases hfl : (fuzzyEmailName e).length > 3
            · cases hfz : odoo.searchFuzzy (fuzzyEmailName e) with
              | cons f fr =>
                exact ⟨[.searchFuzzy (fuzzyEmailName e)],
                  by simp [get_employee_for_user, hue, hne, hgc, hoid, hby,
                    hem, hus, hlink, hfl, hfz, hiz, pyTruthyInt, pyTruthyStr]⟩
              | nil =>
                exact ⟨[.searchFuzzy (fuzzyEmailName e)],
                  by simp [get_employee_for_user, hue, hne, hgc, hoid, hby,
                    hem, hus, hlink, hfl, hfz, hiz, pyTruthyInt, pyTruthyStr]⟩
            · exact ⟨[], by simp [get_employee_for_user, hue, hne, hgc,
                hoid, hby, hem, hus, hlink, hfl, hiz, pyTruthyInt,
                pyTruthyStr]⟩
          | some j =>
            cases hrd : odoo.readEmployees [j] with
            | cons f fr =>
              exact ⟨[.readEmployees [j]],
                by simp [get_employee_for_user, hue, hne, hgc, hoid, hby,
                  hem, hus, hlink, hrd, hiz, pyTruthyInt, pyTruthyStr]⟩
            | nil =>
              by_cases hfl : (fuzzyEmailName e).length > 3
              · cases hfz : odoo.searchFuzzy (fuzzyEmailName e) with
                | cons f fr =>
                  exact ⟨[.readEmployees [j],
                    .searchFuzzy (fuzzyEmailName e)],
                    by simp [get_employee_for_user, hue, hne, hgc, hoid,
                      hby, hem, hus, hlink, hrd, hfl, hfz, hiz,
                      pyTruthyInt, pyTruthyStr]⟩
                | nil =>
                  exact ⟨[.readEmployees [j],
                    .searchFuzzy (fuzzyEmailName e)],
                    by simp [get_employee_for_user, hue, hne, hgc, hoid,
                      hby, hem, hus, hlink, hrd, hfl, hfz, hiz,
                      pyTruthyInt, pyTruthyStr]⟩
              · exact ⟨[.readEmployees [j]],
                  by simp [get_employee_for_user, hue, hne, hgc, hoid, hby,
                    hem, hus, hlink, hrd, hfl, hiz, pyTruthyInt,
                    pyTruthyStr]⟩
    refine ⟨?_, ?_, hfail⟩
    · cases hby : odoo.searchById i with
      | cons emp rest2 =>
        rw [hsucc emp rest2 hby]
        rfl
      | nil =>
        obtain ⟨tail, htr⟩ := hfail hby
        rw [htr]
        rfl
    · intro emp rest2 hby
      rw [hsucc emp rest2 hby]
      exact ⟨rfl, rfl⟩

/-- Witness for the amended C7: with a pre-known id whose fetch succeeds,
the only backend call is the id fetch and its record is returned. -/
theorem resolver_id_claim_first_witness :
    ((get_employee_for_user c7wClaims c7wBackend [] 0).2.2.head? =
      some (.searchById 5)) ∧
    ((get_employee_for_user c7wClaims c7wBackend [] 0).1 =
      .ok (normalizeEmployee c7wEmp) ∧
     (get_employee_for_user c7wClaims c7wBackend [] 0).2.2 =
       [.searchById 5]) := by
  have h := resolver_id_claim_first c7wClaims c7wBackend [] 0 5 "a@b.com"
    rfl (by decide) rfl rfl rfl
  exact ⟨h.1, h.2.1 c7wEmp [] rfl⟩

end OdooMcp
